import Mathlib

/-!
Verification of the two scripts of the openjournal repository against their
natural-language specification.

The development shallowly embeds the two Python source files:

* `src/tools/cleanup.py` — a destructive Docker cleanup tool.  The container
  engine is modelled as an oracle `Engine` mapping a command string to the
  stripped stdout it would produce (`none` models a `CalledProcessError`,
  which `run_command` swallows).  `clean_docker` returns the ordered list of
  engine commands it invokes together with whether it cancelled.

* `src/deploy.py` — the OJS multi-site deployer.  The filesystem is modelled
  as `Fs`: a map from paths (lists of name components, relative to the
  directory of the script) to optional file contents, a directory predicate, and
  an ownership map.  Each pipeline step of `main` becomes a function
  `Fs → StepOut`, where `StepOut` either exits with a code (carrying the
  filesystem state at exit) or continues with the possibly-updated
  filesystem.  Python string methods used by the source (`lower`, `strip`,
  `replace` with a non-empty pattern, `split`) agree with Lean's `toLower`,
  `trim`, `String.replace` and the explicit `pySplit` below on the ASCII
  inputs that arise here.
-/

namespace OpenJournal

/-! ## Python string primitives

Kernel-reducible models of the Python string methods the sources use
(`str.lower`, `str.strip`, `str.replace`, `str.split`).  They agree with
Python on the ASCII data these scripts handle. -/

/-- Python `str.lower` (ASCII range, which is all these scripts compare). -/
def pyLower (s : String) : String :=
  ⟨s.data.map Char.toLower⟩

/-- Python's default `str.strip` whitespace set (ASCII part). -/
def pySpace (c : Char) : Bool :=
  c == ' ' || c == '\t' || c == '\n' || c == '\r' || c == '\x0b' || c == '\x0c'

/-- Python `str.strip()`: drop leading and trailing whitespace. -/
def pyStrip (s : String) : String :=
  ⟨((s.data.dropWhile pySpace).reverse.dropWhile pySpace).reverse⟩

/-- Worker for `pyReplace`: scan left to right, replacing each leftmost
non-overlapping occurrence of `pat` and resuming after the replaced
segment.  The fuel argument (instantiated with the source length, enough
because every step consumes at least one source character for non-empty
`pat`) keeps the recursion structural. -/
def pyReplaceAux (pat rep : List Char) : Nat → List Char → List Char
  | _, [] => []
  | 0, l => l
  | Nat.succ n, c :: cs =>
    if pat.isPrefixOf (c :: cs) then
      rep ++ pyReplaceAux pat rep n ((c :: cs).drop pat.length)
    else
      c :: pyReplaceAux pat rep n cs

/-- Python `str.replace(pat, rep)` for the non-empty patterns these scripts
use (every placeholder token is non-empty; for an empty pattern the source
never reaches `replace` because `content.count("")` is handled the same
way by the surrounding code path). -/
def pyReplace (s pat rep : String) : String :=
  if pat.data.isEmpty then s
  else ⟨pyReplaceAux pat.data rep.data s.data.length s.data⟩

/-- Python `str.split(sep)` for a one-character separator, on the character
list: `"".split(".") == [""]`, `"a.b".split(".") == ["a", "b"]`. -/
def pySplit (sep : Char) : List Char → List (List Char)
  | [] => [[]]
  | c :: cs =>
    if c = sep then [] :: pySplit sep cs
    else
      match pySplit sep cs with
      | [] => [[c]]
      | h :: t => (c :: h) :: t

/-! ## Cleanup tool (`src/tools/cleanup.py`) -/

/-- The container engine, as an oracle: for each command string, the raw
stdout the engine would produce, or `none` if the command fails
(`subprocess.CalledProcessError`). -/
structure Engine where
  exec : String → Option String

/-- `run_command` from `cleanup.py`: run the command, return the stripped
stdout, or `None` when the command failed. -/
def run_command (eng : Engine) (command : String) : Option String :=
  match eng.exec command with
  | some out => some out.trim
  | none => none

/-- Python truthiness of `ids` at the `if ids:` checks: `None` and the empty
string are falsy. -/
def truthy : Option String → Bool
  | some s => !(s == "")
  | none => false

/-- Result of a `clean_docker` run: whether the confirmation cancelled the
operation, and the ordered list of engine commands invoked. -/
structure CleanResult where
  cancelled : Bool
  invoked : List String
  deriving DecidableEq, Repr

/-- `clean_docker` from `cleanup.py`.  The confirmation check is
`confirm.lower() != "yes"`; on cancel `sys.exit()` runs before any engine
command.  Otherwise the five cleanup steps run in order, each re-querying
the engine and acting only when the query output is truthy (step 5 always
prunes). -/
def clean_docker (eng : Engine) (confirm : String) : CleanResult :=
  if !(pyLower confirm == "yes") then
    { cancelled := true, invoked := [] }
  else
    let ids1 := run_command eng "docker ps -aq"
    let l1 := ["docker ps -aq"] ++
      (if truthy ids1 then ["docker stop " ++ ids1.getD ""] else [])
    let ids2 := run_command eng "docker ps -aq"
    let l2 := ["docker ps -aq"] ++
      (if truthy ids2 then ["docker rm " ++ ids2.getD ""] else [])
    let ids3 := run_command eng "docker images -q"
    let l3 := ["docker images -q"] ++
      (if truthy ids3 then ["docker rmi -f " ++ ids3.getD ""] else [])
    let ids4 := run_command eng "docker volume ls -q"
    let l4 := ["docker volume ls -q"] ++
      (if truthy ids4 then ["docker volume rm " ++ ids4.getD ""] else [])
    { cancelled := false,
      invoked := l1 ++ l2 ++ l3 ++ l4 ++ ["docker network prune -f"] }

/-- An engine on which every command fails (daemon down); `run_command`
swallows the failures. -/
def engAllFail : Engine := ⟨fun _ => none⟩

/-! ## Deployer (`src/deploy.py`): constants -/

def TEMPLATE_DIR : String := "journal"

def WWW_DATA_UID : Nat := 33
def WWW_DATA_GID : Nat := 33
def MYSQL_UID : Nat := 999
def MYSQL_GID : Nat := 999

def EXIT_SUCCESS : Nat := 0
def EXIT_USER_ERROR : Nat := 1
def EXIT_PERMISSION_ERROR : Nat := 2

def TOKEN_DOMAIN : String := "\x7b\x7bDOMAIN\x7d\x7d"
def TOKEN_JOURNAL : String := "\x7b\x7bJOURNAL\x7d\x7d"
def TOKEN_DATABASE : String := "\x7b\x7bDATABASE\x7d\x7d"
def TOKEN_DB_HOST : String := "\x7b\x7bDB_HOST\x7d\x7d"
def TOKEN_ACME_EMAIL : String := "\x7b\x7bACME_EMAIL\x7d\x7d"
def TOKEN_LOCALE : String := "\x7b\x7bLOCALE\x7d\x7d"

/-! ## Deployer: filesystem model

A path is the list of name components relative to the directory of the deployer
script (`script_dir`).  The filesystem records, for every path, the file
content stored there (if a regular file), whether a directory is there, and
its ownership pair.  A path "exists" when it holds a file or a directory. -/

abbrev FPath := List String

structure Fs where
  files : FPath → Option String
  isDir : FPath → Bool
  owner : FPath → Nat × Nat

/-- A path exists when it is a file or a directory. -/
def existsPath (fs : Fs) (p : FPath) : Bool :=
  (fs.files p).isSome || fs.isDir p

/-- `shutil.rmtree`: remove the subtree rooted at `t` (the root included). -/
def rmtree (t : FPath) (fs : Fs) : Fs :=
  { files := fun q => if t.isPrefixOf q then none else fs.files q,
    isDir := fun q => if t.isPrefixOf q then false else fs.isDir q,
    owner := fs.owner }

/-- `shutil.copytree src dst`: the subtree below `dst` mirrors the subtree
below `src`; everything else is untouched.  Ownership of fresh copies is
left to the ambient map: no claim depends on pre-`chown` ownership. -/
def copytree (src dst : FPath) (fs : Fs) : Fs :=
  { files := fun q =>
      if dst.isPrefixOf q then fs.files (src ++ q.drop dst.length)
      else fs.files q,
    isDir := fun q =>
      if dst.isPrefixOf q then fs.isDir (src ++ q.drop dst.length)
      else fs.isDir q,
    owner := fs.owner }

/-- Outcome of one pipeline step: `sys.exit code` (carrying the filesystem
state at the moment of exit) or fall-through to the next step with the
possibly updated filesystem. -/
inductive StepOut where
  | exit (code : Nat) (fs : Fs)
  | next (fs : Fs)

/-- The filesystem state when the process ends, whichever way it ends. -/
def stepFs : StepOut → Fs
  | .exit _ fs => fs
  | .next fs => fs

/-- Process exit status: the explicit `sys.exit` code, or `EXIT_SUCCESS`
when `main` runs to completion. -/
def finalExitCode : StepOut → Nat
  | .exit c _ => c
  | .next _ => EXIT_SUCCESS

/-- Sequencing of pipeline steps: a `sys.exit` skips everything after it. -/
def andThen : StepOut → (Fs → StepOut) → StepOut
  | .exit c fs, _ => .exit c fs
  | .next fs, f => f fs

/-! ## Deployer: helpers -/

/-- `_extract_subdomain`: `domain.split(".")[0]`. -/
def _extract_subdomain (domain : String) : String :=
  ⟨(pySplit '.' domain.data).headD []⟩

/-- `_chown_recursive`: in dry-run mode, log only; otherwise `os.walk` the
subtree rooted at `path` (which visits nothing unless `path` is a
directory) and set every visited path's ownership to `uid:gid`. -/
def _chown_recursive (path : FPath) (uid gid : Nat) (dryRun : Bool) (fs : Fs) : Fs :=
  if dryRun then fs
  else if fs.isDir path then
    { fs with owner := fun q =>
        if path.isPrefixOf q && existsPath fs q then (uid, gid) else fs.owner q }
  else fs

/-- `_has_privilege`: effective uid 0, or membership in the `sudo` or
`wheel` group (group names as resolved by `grp`; resolution failures make
the membership set empty, hence the same `false` result). -/
def _has_privilege (euid : Nat) (groups : List String) : Bool :=
  euid == 0 || groups.any (fun g => g == "sudo" || g == "wheel")

/-- Apply an ordered list of `(old, new)` replacements to a content string,
as the loop in `_replace_in_file` does.  (The source guards each `replace`
behind `content.count(old)`, which only skips replacements with zero
occurrences — the identity — so the sequential fold is the same function.) -/
def applyRepls (repls : List (String × String)) (content : String) : String :=
  repls.foldl (fun c p => pyReplace c p.1 p.2) content

/-- `_replace_in_file`: a missing file is skipped with a warning; otherwise
the content is read, all replacements applied, and the result written back
unless in dry-run mode. -/
def _replace_in_file (filepath : FPath) (repls : List (String × String))
    (dryRun : Bool) (fs : Fs) : Fs :=
  match fs.files filepath with
  | none => fs
  | some content =>
    if dryRun then fs
    else
      { fs with files := fun q =>
          if q = filepath then some (applyRepls repls content) else fs.files q }

/-! ## Deployer: core deployment steps -/

/-- `validate_environment`: a missing template directory is fatal
(`sys.exit(EXIT_USER_ERROR)`); missing expected files (`.env`,
`compose.yml`) only produce `log.warning` calls and do not stop the run. -/
def validate_environment (template_dir : FPath) (fs : Fs) : StepOut :=
  if fs.isDir template_dir then .next fs
  else .exit EXIT_USER_ERROR fs

/-- The warnings `validate_environment` emits: one per expected template
file that is absent. -/
def validate_environment_warnings (template_dir : FPath) (fs : Fs) : List FPath :=
  [[".env"], ["compose.yml"]].filter
    (fun name => !(existsPath fs (template_dir ++ name)))

/-- `handle_existing_target`: nothing to do if the target is absent;
dry-run logs and proceeds; `--force` deletes the tree; otherwise prompt —
`reply = none` models `EOFError`/`KeyboardInterrupt` during `input()`,
`some r` the entered line, normalized by `.strip().lower()`. -/
def handle_existing_target (target_dir : FPath) (force dryRun : Bool)
    (reply : Option String) (fs : Fs) : StepOut :=
  if !(existsPath fs target_dir) then .next fs
  else if dryRun then .next fs
  else if force then .next (rmtree target_dir fs)
  else
    match reply with
    | none => .exit EXIT_USER_ERROR fs
    | some r =>
      if pyLower (pyStrip r) == "y" || pyLower (pyStrip r) == "yes" then
        .next (rmtree target_dir fs)
      else .exit EXIT_USER_ERROR fs

/-- `copy_template`: dry-run logs and proceeds; otherwise
`shutil.copytree(template_dir, target_dir)`, whose `FileExistsError` (the
target already exists) or `FileNotFoundError` (the source is gone) escapes
to the top-level handler, which exits with `EXIT_USER_ERROR`. -/
def copy_template (template_dir target_dir : FPath) (dryRun : Bool) (fs : Fs) : StepOut :=
  if dryRun then .next fs
  else if existsPath fs target_dir then .exit EXIT_USER_ERROR fs
  else if !(fs.isDir template_dir) then .exit EXIT_USER_ERROR fs
  else .next (copytree template_dir target_dir fs)

/-- `configure_env`: placeholder substitution in `.env`. -/
def configure_env (env_file : FPath) (domain acme_email subdomain : String)
    (dryRun : Bool) (fs : Fs) : Fs :=
  _replace_in_file env_file
    [(TOKEN_DOMAIN, domain),
     (TOKEN_ACME_EMAIL, acme_email),
     (TOKEN_DB_HOST, "db-" ++ subdomain)] dryRun fs

/-- `configure_config_inc`: placeholder substitution in `config.inc.php`. -/
def configure_config_inc (config_file : FPath) (domain locale subdomain : String)
    (dryRun : Bool) (fs : Fs) : Fs :=
  _replace_in_file config_file
    [(TOKEN_DOMAIN, domain),
     (TOKEN_LOCALE, locale),
     (TOKEN_DB_HOST, "db-" ++ subdomain)] dryRun fs

/-- `configure_compose`: service renaming in `compose.yml`. -/
def configure_compose (compose_file : FPath) (subdomain : String)
    (dryRun : Bool) (fs : Fs) : Fs :=
  _replace_in_file compose_file
    [(TOKEN_JOURNAL, "journal-" ++ subdomain),
     (TOKEN_DATABASE, "db-" ++ subdomain)] dryRun fs

/-- Join path components the way the printed `chown` commands show them. -/
def pathToString : FPath → String
  | [] => ""
  | [a] => a
  | a :: rest => a ++ "/" ++ pathToString rest

/-- Result of `set_permissions`: exit code (if it aborted), the `log.error`
lines it printed, and the resulting filesystem. -/
structure PermResult where
  exitCode : Option Nat
  errorLines : List String
  fs : Fs

/-- `set_permissions`: the privilege check runs first — before any dry-run
short-circuit — and on failure prints the manual remediation commands and
exits with `EXIT_PERMISSION_ERROR`.  Otherwise www-data ownership is set on
all of `volumes`, then mysql ownership on `volumes/db`, the second pass
overriding the first on the overlap. -/
def set_permissions (target_dir : FPath) (dryRun priv : Bool) (fs : Fs) : PermResult :=
  let volumes_dir := target_dir ++ ["volumes"]
  let db_dir := volumes_dir ++ ["db"]
  if !priv then
    { exitCode := some EXIT_PERMISSION_ERROR,
      errorLines :=
        ["Access denied: You must be root or a member of the sudo/wheel group.",
         "Please manually run:",
         "  chown -R " ++ toString WWW_DATA_UID ++ ":" ++ toString WWW_DATA_GID
           ++ " " ++ pathToString volumes_dir,
         "  chown -R " ++ toString MYSQL_UID ++ ":" ++ toString MYSQL_GID
           ++ " " ++ pathToString db_dir],
      fs := fs }
  else
    { exitCode := none,
      errorLines := [],
      fs := _chown_recursive db_dir MYSQL_UID MYSQL_GID dryRun
              (_chown_recursive volumes_dir WWW_DATA_UID WWW_DATA_GID dryRun fs) }

/-- Adapt `set_permissions` to the step pipeline. -/
def permToStep (r : PermResult) : StepOut :=
  match r.exitCode with
  | some c => .exit c r.fs
  | none => .next r.fs

/-! ## Deployer: `main` and the CLI wrapper -/

/-- The body of `main` after argument parsing and logging setup, with the
interactive prompt reply and the identity of the invoker passed in explicitly.
Paths are relative to `script_dir`; the template is `journal`, the target
the extracted subdomain. -/
def mainRun (domain locale : String) (emailOpt : Option String)
    (force dryRun : Bool) (euid : Nat) (groups : List String)
    (reply : Option String) (fs : Fs) : StepOut :=
  let sub := _extract_subdomain domain
  let acme_email := emailOpt.getD ("admin@" ++ domain)
  let template_dir : FPath := [TEMPLATE_DIR]
  let target_dir : FPath := [sub]
  andThen (validate_environment template_dir fs) (fun fs1 =>
  andThen (handle_existing_target target_dir force dryRun reply fs1) (fun fs2 =>
  andThen (copy_template template_dir target_dir dryRun fs2) (fun fs3 =>
  let fs4 := configure_env (target_dir ++ [".env"]) domain acme_email sub dryRun fs3
  let fs5 := configure_config_inc (target_dir ++ ["volumes", "config", "config.inc.php"])
               domain locale sub dryRun fs4
  let fs6 := configure_compose (target_dir ++ ["compose.yml"]) sub dryRun fs5
  permToStep (set_permissions target_dir dryRun (_has_privilege euid groups) fs6))))

/-- The `--log-level` choices enforced by the argument parser. -/
def logLevelChoices : List String := ["DEBUG", "INFO", "WARNING", "ERROR"]

/-- The `logging` module's level attributes that `getattr` can resolve to
an `int` inside `_configure_logging`. -/
def loggingLevelNames : List String :=
  ["CRITICAL", "FATAL", "ERROR", "WARN", "WARNING", "INFO", "DEBUG", "NOTSET"]

/-- Python `str.upper` (ASCII range), used by `_configure_logging`. -/
def pyUpper (s : String) : String :=
  ⟨s.data.map Char.toUpper⟩

/-- `_configure_logging`: exit code `EXIT_USER_ERROR` when
`getattr(logging, level.upper(), None)` is not an int, else no exit. -/
def _configure_logging (level : String) : Option Nat :=
  if loggingLevelNames.contains (pyUpper level) then none
  else some EXIT_USER_ERROR

/-- A full CLI invocation: `argparse` rejects a `--log-level` value outside
its `choices` with its usage-error exit status 2 (before `main`'s body
runs); then `_configure_logging`, then the pipeline. -/
def cliMain (domain locale : String) (emailOpt : Option String)
    (force dryRun : Bool) (logLevel : String) (euid : Nat)
    (groups : List String) (reply : Option String) (fs : Fs) : StepOut :=
  if !(logLevelChoices.contains logLevel) then .exit 2 fs
  else
    match _configure_logging logLevel with
    | some c => .exit c fs
    | none => mainRun domain locale emailOpt force dryRun euid groups reply fs

/-- The filesystem transformation a successful `--force`, non-dry-run run
performs before the ownership step: delete the existing target (if any),
re-copy the template, then apply the three substitution steps. -/
def forceDeployFs (domain locale : String) (emailOpt : Option String) (fs : Fs) : Fs :=
  let sub := _extract_subdomain domain
  let template_dir : FPath := [TEMPLATE_DIR]
  let target_dir : FPath := [sub]
  let fsR := if existsPath fs target_dir then rmtree target_dir fs else fs
  let fsC := copytree template_dir target_dir fsR
  let fs4 := configure_env (target_dir ++ [".env"]) domain
               (emailOpt.getD ("admin@" ++ domain)) sub false fsC
  let fs5 := configure_config_inc (target_dir ++ ["volumes", "config", "config.inc.php"])
               domain locale sub false fs4
  configure_compose (target_dir ++ ["compose.yml"]) sub false fs5

/-- The target subtree a successful force run produces, as a function of
the template subtree alone (`tf q` is the template file at relative path
`q`). -/
def targetSpecFiles (domain locale : String) (emailOpt : Option String)
    (tf : FPath → Option String) (p : FPath) : Option String :=
  let sub := _extract_subdomain domain
  if p = [sub] ++ ["compose.yml"] then
    (tf ["compose.yml"]).map
      (applyRepls [(TOKEN_JOURNAL, "journal-" ++ sub), (TOKEN_DATABASE, "db-" ++ sub)])
  else if p = [sub] ++ ["volumes", "config", "config.inc.php"] then
    (tf ["volumes", "config", "config.inc.php"]).map
      (applyRepls [(TOKEN_DOMAIN, domain), (TOKEN_LOCALE, locale),
        (TOKEN_DB_HOST, "db-" ++ sub)])
  else if p = [sub] ++ [".env"] then
    (tf [".env"]).map
      (applyRepls [(TOKEN_DOMAIN, domain),
        (TOKEN_ACME_EMAIL, emailOpt.getD ("admin@" ++ domain)),
        (TOKEN_DB_HOST, "db-" ++ sub)])
  else tf (p.drop 1)

/-- A concrete template tree with all three configurable files and the
volume skeleton. -/
def fsDeploy0 : Fs :=
  { files := fun p =>
      if p == ["journal", ".env"] then
        some "D=\x7b\x7bDOMAIN\x7d\x7d H=\x7b\x7bDB_HOST\x7d\x7d M=\x7b\x7bACME_EMAIL\x7d\x7d"
      else if p == ["journal", "compose.yml"] then
        some "a: \x7b\x7bJOURNAL\x7d\x7d b: \x7b\x7bDATABASE\x7d\x7d"
      else if p == ["journal", "volumes", "config", "config.inc.php"] then
        some "dom=\x7b\x7bDOMAIN\x7d\x7d loc=\x7b\x7bLOCALE\x7d\x7d"
      else none,
    isDir := fun p =>
      p == ["journal"] || p == ["journal", "volumes"] ||
      p == ["journal", "volumes", "config"] || p == ["journal", "volumes", "db"],
    owner := fun _ => (0, 0) }

/-- The filesystem after the first force deployment of `a.example.com`. -/
def deployG1 : Fs := stepFs (mainRun "a.example.com" "en" none true false 0 [] none fsDeploy0)

/-- The filesystem after force re-deploying on top of `deployG1`. -/
def deployG2 : Fs := stepFs (mainRun "a.example.com" "en" none true false 0 [] none deployG1)

/-! ## Concrete filesystems used as witnesses and counterexamples -/

/-- The empty filesystem. -/
def fsEmpty : Fs :=
  { files := fun _ => none, isDir := fun _ => false, owner := fun _ => (0, 0) }

/-- A filesystem where the template directory exists but holds neither of
the expected marker files. -/
def fsTemplOnly : Fs :=
  { files := fun _ => none,
    isDir := fun p => p == ["journal"],
    owner := fun _ => (0, 0) }

/-- A filesystem with an empty template directory and an existing target
directory `x` holding one file. -/
def fsPadded : Fs :=
  { files := fun p => if p == ["x", "old.txt"] then some "old" else none,
    isDir := fun p => p == ["journal"] || p == ["x"],
    owner := fun _ => (0, 0) }

/-- A concrete deployed instance tree at `t`: a directory skeleton with a
database file under `volumes/db` and a configuration file directly under
`volumes`. -/
def fsPerm : Fs :=
  { files := fun p =>
      if p == ["t", "volumes", "db", "data.ibd"] then some "x"
      else if p == ["t", "volumes", "cfg.txt"] then some "y"
      else none,
    isDir := fun p =>
      p == ["t"] || p == ["t", "volumes"] || p == ["t", "volumes", "db"],
    owner := fun _ => (0, 0) }

/-! ## General-purpose lemmas about the model -/

/-- `pySplit` never returns the empty list. -/
theorem pySplit_ne_nil (sep : Char) (l : List Char) : pySplit sep l ≠ [] := by
  induction l with
  | nil => simp [pySplit]
  | cons c cs ih =>
    unfold pySplit
    by_cases h : c = sep
    · simp [h]
    · simp only [if_neg h]
      cases heq : pySplit sep cs with
      | nil => exact absurd heq ih
      | cons a t => simp

/-- The first chunk of `pySplit` is the run of characters before the first
separator. -/
theorem pySplit_headD (sep : Char) (l : List Char) :
    (pySplit sep l).headD [] = l.takeWhile (fun c => c != sep) := by
  induction l with
  | nil => rfl
  | cons c cs ih =>
    unfold pySplit
    by_cases h : c = sep
    · simp [h]
    · cases heq : pySplit sep cs with
      | nil => exact absurd heq (pySplit_ne_nil sep cs)
      | cons a t =>
        rw [if_neg h, List.takeWhile_cons]
        have hb : (c != sep) = true := bne_iff_ne.mpr h
        rw [hb]
        simp only [List.headD_cons]
        rw [← ih, heq]
        rfl

/-- Without superuser identity or an administrative group, the privilege
check fails. -/
theorem has_privilege_eq_false (euid : Nat) (groups : List String)
    (h0 : euid ≠ 0) (h1 : "sudo" ∉ groups) (h2 : "wheel" ∉ groups) :
    _has_privilege euid groups = false := by
  unfold _has_privilege
  rw [Bool.or_eq_false_iff]
  refine ⟨beq_eq_false_iff_ne.mpr h0, ?_⟩
  rw [List.any_eq_false]
  intro g hg
  simp only [Bool.or_eq_true, beq_iff_eq, not_or]
  exact ⟨fun he => h1 (he ▸ hg), fun he => h2 (he ▸ hg)⟩

/-- `handle_existing_target` never touches the filesystem in dry-run mode. -/
theorem handle_existing_target_dry (t : FPath) (force : Bool)
    (reply : Option String) (fs : Fs) :
    handle_existing_target t force true reply fs = .next fs := by
  unfold handle_existing_target
  cases hx : existsPath fs t <;> simp [hx]

/-- `_replace_in_file` never touches the filesystem in dry-run mode. -/
theorem replace_in_file_dry (p : FPath) (repls : List (String × String)) (fs : Fs) :
    _replace_in_file p repls true fs = fs := by
  unfold _replace_in_file
  cases h : fs.files p <;> simp

/-- `_chown_recursive` never touches the filesystem in dry-run mode. -/
theorem chown_recursive_dry (p : FPath) (uid gid : Nat) (fs : Fs) :
    _chown_recursive p uid gid true fs = fs := rfl

/-- The file-content map of `_replace_in_file` in one formula. -/
theorem replace_in_file_files (path : FPath) (repls : List (String × String))
    (fs : Fs) (p : FPath) :
    (_replace_in_file path repls false fs).files p =
      if p = path then (fs.files path).map (applyRepls repls) else fs.files p := by
  unfold _replace_in_file
  cases h : fs.files path with
  | none =>
    by_cases hp : p = path
    · simp [hp, h]
    · simp [hp]
  | some c =>
    by_cases hp : p = path
    · simp [hp, h]
    · simp [hp]

/-- `_replace_in_file` does not change the directory structure. -/
theorem replace_in_file_isDir (path : FPath) (repls : List (String × String))
    (dryRun : Bool) (fs : Fs) :
    (_replace_in_file path repls dryRun fs).isDir = fs.isDir := by
  unfold _replace_in_file
  cases h : fs.files path with
  | none => rfl
  | some c => cases dryRun <;> rfl

/-- `_chown_recursive` does not change file contents. -/
theorem chown_recursive_files (p : FPath) (uid gid : Nat) (dryRun : Bool) (fs : Fs) :
    (_chown_recursive p uid gid dryRun fs).files = fs.files := by
  unfold _chown_recursive
  split
  · rfl
  split
  · rfl
  · rfl

/-- The privileged, non-dry-run ownership step does not change file
contents. -/
theorem set_permissions_true_files (t : FPath) (fs : Fs) :
    (set_permissions t false true fs).fs.files = fs.files := by
  unfold set_permissions
  simp only [Bool.not_true, Bool.false_eq_true, if_false]
  rw [chown_recursive_files, chown_recursive_files]

/-- Prefix test of a singleton pattern against a cons. -/
theorem isPrefixOf_singleton_cons (a b : String) (l : List String) :
    ([a] : List String).isPrefixOf (b :: l) = (a == b) := by
  simp [List.isPrefixOf]

/-- Every path is a path-prefix of itself. -/
theorem isPrefixOf_self (t : FPath) : t.isPrefixOf t = true := by
  induction t with
  | nil => rfl
  | cons a l ih => simp [List.isPrefixOf, ih]

/-- After `rmtree t`, nothing exists at `t` any more. -/
theorem rmtree_exists_self (t : FPath) (fs : Fs) :
    existsPath (rmtree t fs) t = false := by
  simp [existsPath, rmtree, isPrefixOf_self]

/-- Inverting a successful `--force`, non-dry-run run: the template
directory existed, the derived subdomain is not the template name, the
invoker was privileged, and the resulting filesystem is exactly the forced
deployment transformation followed by the two ownership passes. -/
theorem mainRun_force_inversion (d l : String) (e : Option String) (euid : Nat)
    (groups : List String) (reply : Option String) (fs g : Fs)
    (h : mainRun d l e true false euid groups reply fs = .next g) :
    fs.isDir [TEMPLATE_DIR] = true ∧
    _extract_subdomain d ≠ TEMPLATE_DIR ∧
    _has_privilege euid groups = true ∧
    g = (set_permissions [_extract_subdomain d] false true (forceDeployFs d l e fs)).fs := by
  unfold mainRun at h
  cases hT : fs.isDir [TEMPLATE_DIR] with
  | false =>
    simp [validate_environment, hT, andThen] at h
  | true =>
    simp only [validate_environment, hT, if_true, andThen] at h
    by_cases hne : _extract_subdomain d = TEMPLATE_DIR
    · -- subdomain collides with the template directory: the run cannot succeed
      exfalso
      cases hE : existsPath fs [_extract_subdomain d] with
      | false =>
        rw [hne] at hE
        simp [existsPath, hT] at hE
      | true =>
        simp only [handle_existing_target, hE, Bool.not_true, Bool.false_eq_true,
          if_false, if_true, andThen] at h
        have hdir : (rmtree [_extract_subdomain d] fs).isDir [TEMPLATE_DIR] = false := by
          simp [rmtree, hne, isPrefixOf_singleton_cons]
        simp [copy_template, rmtree_exists_self, hdir, andThen] at h
    · -- main path
      have hpre : ([_extract_subdomain d] : FPath).isPrefixOf [TEMPLATE_DIR] = false := by
        rw [isPrefixOf_singleton_cons]
        exact beq_eq_false_iff_ne.mpr hne
      cases hE : existsPath fs [_extract_subdomain d] with
      | false =>
        simp only [handle_existing_target, hE, Bool.not_false, if_true, andThen] at h
        simp only [copy_template, hE, Bool.false_eq_true, if_false, hT,
          Bool.not_true, andThen] at h
        cases hP : _has_privilege euid groups with
        | false => simp [permToStep, set_permissions, hP] at h
        | true =>
          refine ⟨rfl, hne, rfl, ?_⟩
          rw [hP] at h
          simp only [permToStep, set_permissions] at h
          simp only [forceDeployFs, set_permissions, hE, Bool.false_eq_true, if_false,
            Bool.not_true]
          injection h with h
          exact h.symm
      | true =>
        simp only [handle_existing_target, hE, Bool.not_true, Bool.false_eq_true,
          if_false, if_true, andThen] at h
        have hdir : (rmtree [_extract_subdomain d] fs).isDir [TEMPLATE_DIR] = true := by
          simp [rmtree, hpre, hne, hT]
        simp only [copy_template, rmtree_exists_self, hdir, Bool.false_eq_true,
          Bool.not_true, if_false, if_true, andThen] at h
        cases hP : _has_privilege euid groups with
        | false => simp [permToStep, set_permissions, hP] at h
        | true =>
          refine ⟨rfl, hne, rfl, ?_⟩
          rw [hP] at h
          simp only [permToStep, set_permissions] at h
          simp only [forceDeployFs, set_permissions, hE, if_true]
          injection h with h
          exact h.symm

/-- Paths outside the target subtree are untouched by the forced
deployment transformation. -/
theorem forceDeployFs_files_outside (d l : String) (e : Option String) (fs : Fs)
    (p : FPath) (hp : ([_extract_subdomain d] : FPath).isPrefixOf p = false) :
    (forceDeployFs d l e fs).files p = fs.files p := by
  have hc : ∀ t : List String, p ≠ [_extract_subdomain d] ++ t := by
    intro t he
    rw [he] at hp
    rw [show ([_extract_subdomain d] ++ t : FPath) = _extract_subdomain d :: t from rfl,
      isPrefixOf_singleton_cons] at hp
    simp at hp
  simp only [forceDeployFs, configure_compose, configure_config_inc, configure_env]
  rw [replace_in_file_files, if_neg (hc _)]
  rw [replace_in_file_files, if_neg (hc _)]
  rw [replace_in_file_files, if_neg (hc _)]
  simp only [copytree, hp, Bool.false_eq_true, if_false]
  cases hE : existsPath fs [_extract_subdomain d] with
  | false => simp [hE]
  | true =>
    have hnp : ¬(([_extract_subdomain d] : FPath) <+: p) := by
      intro hcon
      rw [← List.isPrefixOf_iff_prefix] at hcon
      rw [hp] at hcon
      exact Bool.false_ne_true hcon
    simp [hE, rmtree, hnp]

/-- Inside the target subtree the forced deployment result is a function
of the template subtree alone. -/
theorem forceDeployFs_files_inside (d l : String) (e : Option String) (fs : Fs)
    (hne : _extract_subdomain d ≠ TEMPLATE_DIR) (p : FPath)
    (hp : ([_extract_subdomain d] : FPath).isPrefixOf p = true) :
    (forceDeployFs d l e fs).files p =
      targetSpecFiles d l e (fun q => fs.files ([TEMPLATE_DIR] ++ q)) p := by
  have hself : ∀ t : List String,
      ([_extract_subdomain d] : FPath).isPrefixOf ([_extract_subdomain d] ++ t) = true := by
    intro t
    show ([_extract_subdomain d] : FPath).isPrefixOf (_extract_subdomain d :: t) = true
    rw [isPrefixOf_singleton_cons]
    simp
  have hC : ∀ r : FPath, ([_extract_subdomain d] : FPath).isPrefixOf r = true →
      (copytree [TEMPLATE_DIR] [_extract_subdomain d]
        (if existsPath fs [_extract_subdomain d] then
          rmtree [_extract_subdomain d] fs else fs)).files r
      = fs.files ([TEMPLATE_DIR] ++ r.drop 1) := by
    intro r hr
    simp only [copytree, hr, if_true]
    cases hE : existsPath fs [_extract_subdomain d] with
    | false => simp [hE]
    | true => simp [hE, rmtree, hne]
  have hne32 : ([_extract_subdomain d] ++ ["compose.yml"] : FPath) ≠
      [_extract_subdomain d] ++ ["volumes", "config", "config.inc.php"] := by
    rw [Ne, List.append_right_inj]
    decide
  have hne31 : ([_extract_subdomain d] ++ ["compose.yml"] : FPath) ≠
      [_extract_subdomain d] ++ [".env"] := by
    rw [Ne, List.append_right_inj]
    decide
  have hne21 : ([_extract_subdomain d] ++ ["volumes", "config", "config.inc.php"] : FPath) ≠
      [_extract_subdomain d] ++ [".env"] := by
    rw [Ne, List.append_right_inj]
    decide
  simp only [forceDeployFs, configure_compose, configure_config_inc, configure_env]
  by_cases h3 : p = [_extract_subdomain d] ++ ["compose.yml"]
  · subst h3
    rw [replace_in_file_files, if_pos rfl]
    rw [replace_in_file_files, if_neg hne32]
    rw [replace_in_file_files, if_neg hne31]
    rw [hC _ (hself _)]
    simp [targetSpecFiles]
  · rw [replace_in_file_files, if_neg h3]
    by_cases h2 : p = [_extract_subdomain d] ++ ["volumes", "config", "config.inc.php"]
    · subst h2
      rw [replace_in_file_files, if_pos rfl]
      rw [replace_in_file_files, if_neg hne21]
      rw [hC _ (hself _)]
      simp [targetSpecFiles]
    · rw [replace_in_file_files, if_neg h2]
      by_cases h1 : p = [_extract_subdomain d] ++ [".env"]
      · subst h1
        rw [replace_in_file_files, if_pos rfl]
        rw [hC _ (hself _)]
        simp [targetSpecFiles]
      · rw [replace_in_file_files, if_neg h1]
        rw [hC _ hp]
        simp only [targetSpecFiles]
        rw [if_neg h3, if_neg h2, if_neg h1]

/-- `targetSpecFiles` respects pointwise-equal template subtrees. -/
theorem targetSpecFiles_congr (d l : String) (e : Option String)
    (tf tg : FPath → Option String) (p : FPath)
    (h : ∀ q, tf q = tg q) :
    targetSpecFiles d l e tf p = targetSpecFiles d l e tg p := by
  unfold targetSpecFiles
  simp only [h]

end OpenJournal

namespace OpenJournal

/-- C1 counterexample: the confirmation input `"YES"` is not the exact
lowercase string `"yes"`, yet the cleanup tool does NOT cancel and does
invoke container engine commands, because the code lowercases the input
before comparing. -/
theorem clean_docker_mixed_case_proceeds :
    ("YES" ≠ "yes") ∧
    (clean_docker engAllFail "YES").cancelled = false ∧
    (clean_docker engAllFail "YES").invoked ≠ [] := by
  decide

/-- C1 (amended): the cleanup tool cancels — invoking no container engine
command — exactly when the lowercased confirmation input differs from
`"yes"`; in particular inputs with surrounding whitespace cancel, but
mixed-case variants of yes (such as `"YES"`) are accepted and proceed. -/
theorem clean_docker_cancel_amended (eng : Engine) (confirm : String)
    (h : pyLower confirm ≠ "yes") :
    clean_docker eng confirm = { cancelled := true, invoked := [] } := by
  unfold clean_docker
  have hb : (pyLower confirm == "yes") = false := beq_eq_false_iff_ne.mpr h
  rw [hb]
  rfl

/-- C1 witness: the amended cancellation theorem at the concrete input
`"no"`. -/
theorem clean_docker_cancel_amended_witness :
    (pyLower "no" ≠ "yes") ∧
    clean_docker engAllFail "no" = { cancelled := true, invoked := [] } :=
  ⟨by decide, clean_docker_cancel_amended engAllFail "no" (by decide)⟩

/-- C2: with the dry-run flag set, a full deployer invocation leaves the
filesystem — destination directory, template tree, everything — exactly as
it was, whichever way the run ends. -/
theorem dry_run_preserves_fs (domain locale : String) (emailOpt : Option String)
    (force : Bool) (logLevel : String) (euid : Nat) (groups : List String)
    (reply : Option String) (fs : Fs) :
    stepFs (cliMain domain locale emailOpt force true logLevel euid groups reply fs) = fs := by
  unfold cliMain
  cases hl : logLevelChoices.contains logLevel with
  | false => simp [stepFs]
  | true =>
    simp only [Bool.not_true, Bool.false_eq_true, if_false]
    cases hc : _configure_logging logLevel with
    | some c => simp [stepFs]
    | none =>
      unfold mainRun
      cases hv : fs.isDir [TEMPLATE_DIR] with
      | false => simp [validate_environment, hv, andThen, stepFs]
      | true =>
        simp only [validate_environment, hv, if_true, andThen,
          handle_existing_target_dry, copy_template,
          configure_env, configure_config_inc, configure_compose,
          replace_in_file_dry, set_permissions, chown_recursive_dry]
        cases hp : _has_privilege euid groups <;>
          simp [permToStep, stepFs]

/-- C3 counterexample: an invocation with the invalid log level `"TRACE"`
exits with status 2 — the usage-error code of the argument parser — and not
with the user-error status 1 the claim asserts. -/
theorem invalid_log_level_exits_two :
    logLevelChoices.contains "TRACE" = false ∧
    finalExitCode (cliMain "journal1.example.com" "en" none false false
      "TRACE" 0 [] none fsEmpty) = 2 ∧
    finalExitCode (cliMain "journal1.example.com" "en" none false false
      "TRACE" 0 [] none fsEmpty) ≠ EXIT_USER_ERROR := by
  decide

/-- C3 (amended): for every log level outside the choice set of the parser, the
process exits with status 2, the usage-error code of the argument parser; the
user-error exit path inside `_configure_logging` is unreachable from the
command line. -/
theorem invalid_log_level_amended (domain locale : String) (emailOpt : Option String)
    (force dryRun : Bool) (level : String) (euid : Nat) (groups : List String)
    (reply : Option String) (fs : Fs)
    (h : logLevelChoices.contains level = false) :
    cliMain domain locale emailOpt force dryRun level euid groups reply fs = .exit 2 fs := by
  unfold cliMain
  rw [h]
  rfl

/-- C3 witness: the amended exit-status theorem at the concrete invalid
level `"debug"` (lowercase, hence outside the choice set). -/
theorem invalid_log_level_amended_witness :
    logLevelChoices.contains "debug" = false ∧
    cliMain "a.b" "en" none false false "debug" 0 [] none fsEmpty = .exit 2 fsEmpty :=
  ⟨by decide,
   invalid_log_level_amended "a.b" "en" none false false "debug" 0 [] none fsEmpty
     (by decide)⟩

/-- C4 counterexample: a template directory missing both marker files
(`.env` and the compose descriptor) only produces warnings — the run
proceeds to a successful exit status 0, not a loud non-zero failure. -/
theorem missing_markers_proceeds :
    fsTemplOnly.isDir ["journal"] = true ∧
    fsTemplOnly.files ["journal", ".env"] = none ∧
    fsTemplOnly.files ["journal", "compose.yml"] = none ∧
    validate_environment_warnings ["journal"] fsTemplOnly = [[".env"], ["compose.yml"]] ∧
    finalExitCode (cliMain "a.example.com" "en" none false false "INFO"
      0 [] none fsTemplOnly) = EXIT_SUCCESS := by
  decide

/-- C4 (amended): only a missing template directory itself aborts the run
(with user-error status 1); missing marker files inside an existing
template merely produce warnings and the pipeline proceeds. -/
theorem missing_template_dir_exits_one (domain locale : String)
    (emailOpt : Option String) (force dryRun : Bool) (euid : Nat)
    (groups : List String) (reply : Option String) (fs : Fs)
    (h : fs.isDir [TEMPLATE_DIR] = false) :
    cliMain domain locale emailOpt force dryRun "INFO" euid groups reply fs =
      .exit EXIT_USER_ERROR fs := by
  have hc : cliMain domain locale emailOpt force dryRun "INFO" euid groups reply fs =
      mainRun domain locale emailOpt force dryRun euid groups reply fs := rfl
  rw [hc]
  unfold mainRun
  simp [validate_environment, h, andThen]

/-- C4 witness: the amended theorem at a filesystem with no template
directory at all. -/
theorem missing_template_dir_exits_one_witness :
    fsEmpty.isDir [TEMPLATE_DIR] = false ∧
    cliMain "a.b" "en" none false true "INFO" 3 ["users"] none fsEmpty =
      .exit EXIT_USER_ERROR fsEmpty :=
  ⟨by decide,
   missing_template_dir_exits_one "a.b" "en" none false true 3 ["users"] none fsEmpty
     (by decide)⟩

/-- C5 counterexample: the interactive answer `" y "` is not
case-insensitively equal to `"y"` or `"yes"`, yet the process does not
abort with status 1 and the pre-existing destination file is destroyed:
the code strips surrounding whitespace before comparing. -/
theorem padded_yes_overwrites :
    (pyLower " y " ≠ "y" ∧ pyLower " y " ≠ "yes") ∧
    finalExitCode (mainRun "x.example.com" "en" none false false 0 []
      (some " y ") fsPadded) ≠ EXIT_USER_ERROR ∧
    fsPadded.files ["x", "old.txt"] = some "old" ∧
    (stepFs (mainRun "x.example.com" "en" none false false 0 []
      (some " y ") fsPadded)).files ["x", "old.txt"] = none := by
  decide

/-- C5 (amended): in a non-force, non-dry-run invocation with an existing
destination, any interactive answer whose whitespace-stripped, lowercased
form is neither `"y"` nor `"yes"` — as well as end-of-input or interrupt
during the prompt — exits the process with status 1 and leaves the
filesystem, destination included, untouched. -/
theorem decline_aborts_untouched (domain locale : String) (emailOpt : Option String)
    (euid : Nat) (groups : List String) (reply : Option String) (fs : Fs)
    (htmpl : fs.isDir [TEMPLATE_DIR] = true)
    (hex : existsPath fs [_extract_subdomain domain] = true)
    (hreply : ∀ r, reply = some r →
      pyLower (pyStrip r) ≠ "y" ∧ pyLower (pyStrip r) ≠ "yes") :
    mainRun domain locale emailOpt false false euid groups reply fs =
      .exit EXIT_USER_ERROR fs := by
  unfold mainRun
  simp only [validate_environment, htmpl, if_true, andThen]
  unfold handle_existing_target
  rw [hex]
  cases reply with
  | none => rfl
  | some r =>
    obtain ⟨h1, h2⟩ := hreply r rfl
    simp only [Bool.not_true, Bool.false_eq_true, if_false,
      beq_eq_false_iff_ne.mpr h1, beq_eq_false_iff_ne.mpr h2]
    rfl

/-- C5 witness: the amended abort theorem at the concrete declined answer
`"n"` on a filesystem with an existing destination. -/
theorem decline_aborts_untouched_witness :
    fsPadded.isDir [TEMPLATE_DIR] = true ∧
    existsPath fsPadded [_extract_subdomain "x.example.com"] = true ∧
    mainRun "x.example.com" "en" none false false 0 [] (some "n") fsPadded =
      .exit EXIT_USER_ERROR fsPadded :=
  ⟨by decide, by decide,
   decline_aborts_untouched "x.example.com" "en" none 0 [] (some "n") fsPadded
     (by decide) (by decide)
     (fun r hr => by cases hr; exact ⟨by decide, by decide⟩)⟩

/-- C6: when the invoking principal is neither root nor a member of an
administrative group, the ownership step exits with the permission-error
status 2 and prints the two manual `chown` remediation commands with the
literal uid:gid values `33:33` (volumes subtree) and `999:999` (database
subtree). -/
theorem unprivileged_exit_and_remediation (target_dir : FPath) (dryRun : Bool)
    (euid : Nat) (groups : List String) (fs : Fs)
    (h0 : euid ≠ 0) (h1 : "sudo" ∉ groups) (h2 : "wheel" ∉ groups) :
    (set_permissions target_dir dryRun (_has_privilege euid groups) fs).exitCode =
      some EXIT_PERMISSION_ERROR ∧
    (set_permissions target_dir dryRun (_has_privilege euid groups) fs).errorLines =
      ["Access denied: You must be root or a member of the sudo/wheel group.",
       "Please manually run:",
       "  chown -R 33:33 " ++ pathToString (target_dir ++ ["volumes"]),
       "  chown -R 999:999 " ++ pathToString (target_dir ++ ["volumes", "db"])] ∧
    (set_permissions target_dir dryRun (_has_privilege euid groups) fs).fs = fs := by
  rw [has_privilege_eq_false euid groups h0 h1 h2]
  refine ⟨rfl, ?_, rfl⟩
  have h33 : "  chown -R " ++ toString WWW_DATA_UID ++ ":" ++ toString WWW_DATA_GID
      ++ " " = "  chown -R 33:33 " := by decide
  have h99 : "  chown -R " ++ toString MYSQL_UID ++ ":" ++ toString MYSQL_GID
      ++ " " = "  chown -R 999:999 " := by decide
  show ["Access denied: You must be root or a member of the sudo/wheel group.",
        "Please manually run:",
        "  chown -R " ++ toString WWW_DATA_UID ++ ":" ++ toString WWW_DATA_GID
          ++ " " ++ pathToString (target_dir ++ ["volumes"]),
        "  chown -R " ++ toString MYSQL_UID ++ ":" ++ toString MYSQL_GID
          ++ " " ++ pathToString (target_dir ++ ["volumes"] ++ ["db"])] = _
  rw [h33, h99]
  have hp : target_dir ++ ["volumes"] ++ ["db"] = target_dir ++ ["volumes", "db"] := by
    simp
  rw [hp]

/-- C6 witness: the remediation theorem for a concrete unprivileged user
(uid 1000, groups `docker`/`users`) on a concrete target. -/
theorem unprivileged_exit_and_remediation_witness :
    (1000 ≠ 0) ∧
    (set_permissions ["j"] false (_has_privilege 1000 ["docker", "users"]) fsEmpty).exitCode =
      some EXIT_PERMISSION_ERROR ∧
    (set_permissions ["j"] false (_has_privilege 1000 ["docker", "users"]) fsEmpty).errorLines =
      ["Access denied: You must be root or a member of the sudo/wheel group.",
       "Please manually run:",
       "  chown -R 33:33 " ++ pathToString (["j"] ++ ["volumes"]),
       "  chown -R 999:999 " ++ pathToString (["j"] ++ ["volumes", "db"])] :=
  ⟨by decide,
   (unprivileged_exit_and_remediation ["j"] false 1000 ["docker", "users"] fsEmpty
     (by decide) (by decide) (by decide)).1,
   (unprivileged_exit_and_remediation ["j"] false 1000 ["docker", "users"] fsEmpty
     (by decide) (by decide) (by decide)).2.1⟩

/-- C9: the derived instance identifier is the text before the first `.`
of the domain — for a domain with no dot, the whole domain — for every
domain string, with no validation or sanitization applied. -/
theorem extract_subdomain_spec (domain : String) :
    (domain.data.contains '.' = true →
      _extract_subdomain domain = ⟨domain.data.takeWhile (fun c => c != '.')⟩) ∧
    (domain.data.contains '.' = false → _extract_subdomain domain = domain) := by
  have hall : _extract_subdomain domain = ⟨domain.data.takeWhile (fun c => c != '.')⟩ := by
    unfold _extract_subdomain
    rw [pySplit_headD]
  constructor
  · intro _
    exact hall
  · intro h
    rw [hall]
    have hmem : '.' ∉ domain.data := by
      intro hm
      have he : domain.data.contains '.' = true := List.elem_iff.mpr hm
      rw [h] at he
      exact Bool.false_ne_true he
    have ht : domain.data.takeWhile (fun c => c != '.') = domain.data := by
      rw [List.takeWhile_eq_self_iff]
      intro c hc
      exact bne_iff_ne.mpr (fun he => hmem (he ▸ hc))
    rw [ht]

/-- C9 witness: the identifier derivation at a dotted domain and at a
dotless domain. -/
theorem extract_subdomain_spec_witness :
    "journal1.example.com".data.contains '.' = true ∧
    _extract_subdomain "journal1.example.com" =
      ⟨"journal1.example.com".data.takeWhile (fun c => c != '.')⟩ ∧
    "nodots".data.contains '.' = false ∧
    _extract_subdomain "nodots" = "nodots" :=
  ⟨by decide,
   (extract_subdomain_spec "journal1.example.com").1 (by decide),
   by decide,
   (extract_subdomain_spec "nodots").2 (by decide)⟩

/-- C7: in a privileged, non-dry-run ownership step, after both recursive
passes every existing path under the database subtree `volumes/db` is
owned `999:999`, and every existing path under the `volumes` subtree but
outside the database subtree is owned `33:33`: the second pass overrides
the first on the overlap. -/
theorem ownership_after_both_passes (target_dir : FPath) (fs : Fs)
    (hv : fs.isDir (target_dir ++ ["volumes"]) = true)
    (hd : fs.isDir (target_dir ++ ["volumes", "db"]) = true) :
    (∀ q, existsPath fs q = true →
      (target_dir ++ ["volumes", "db"]).isPrefixOf q = true →
      (set_permissions target_dir false true fs).fs.owner q = (MYSQL_UID, MYSQL_GID)) ∧
    (∀ q, existsPath fs q = true →
      (target_dir ++ ["volumes"]).isPrefixOf q = true →
      (target_dir ++ ["volumes", "db"]).isPrefixOf q = false →
      (set_permissions target_dir false true fs).fs.owner q = (WWW_DATA_UID, WWW_DATA_GID)) := by
  have hassoc : target_dir ++ ["volumes"] ++ ["db"] = target_dir ++ ["volumes", "db"] := by
    simp
  constructor
  · intro q hq hpre
    simp only [existsPath, Bool.or_eq_true] at hq
    simp at hpre
    rcases hq with hq | hq <;>
      simp [set_permissions, _chown_recursive, existsPath, hassoc, hv, hd, hpre, hq]
  · intro q hq hpre hnpre
    simp only [existsPath, Bool.or_eq_true] at hq
    simp at hpre
    have hnp : ¬(target_dir ++ ["volumes", "db"] <+: q) := by
      intro hc
      rw [← List.isPrefixOf_iff_prefix] at hc
      rw [hnpre] at hc
      exact Bool.false_ne_true hc
    rcases hq with hq | hq <;>
      simp [set_permissions, _chown_recursive, existsPath, hassoc, hv, hd, hpre, hnp, hq]

/-- C7 witness: the two-pass ownership theorem on a concrete instance tree
with a database file and a non-database file. -/
theorem ownership_after_both_passes_witness :
    fsPerm.isDir (["t"] ++ ["volumes"]) = true ∧
    fsPerm.isDir (["t"] ++ ["volumes", "db"]) = true ∧
    (set_permissions ["t"] false true fsPerm).fs.owner
      ["t", "volumes", "db", "data.ibd"] = (MYSQL_UID, MYSQL_GID) ∧
    (set_permissions ["t"] false true fsPerm).fs.owner
      ["t", "volumes", "cfg.txt"] = (WWW_DATA_UID, WWW_DATA_GID) :=
  ⟨by decide, by decide,
   (ownership_after_both_passes ["t"] fsPerm (by decide) (by decide)).1
     ["t", "volumes", "db", "data.ibd"] (by decide) (by decide),
   (ownership_after_both_passes ["t"] fsPerm (by decide) (by decide)).2
     ["t", "volumes", "cfg.txt"] (by decide) (by decide) (by decide)⟩

/-- C10 (implicit): the privilege check of the ownership step runs before
the dry-run short-circuit, so an unprivileged, non-admin-group principal
gets the permission-error exit status 2 even with the dry-run flag set
(the filesystem is still untouched at that point). -/
theorem unprivileged_dry_run_exits_two (target_dir : FPath) (euid : Nat)
    (groups : List String) (fs : Fs)
    (h0 : euid ≠ 0) (h1 : "sudo" ∉ groups) (h2 : "wheel" ∉ groups) :
    (set_permissions target_dir true (_has_privilege euid groups) fs).exitCode =
      some EXIT_PERMISSION_ERROR ∧
    (set_permissions target_dir true (_has_privilege euid groups) fs).fs = fs := by
  rw [has_privilege_eq_false euid groups h0 h1 h2]
  exact ⟨rfl, rfl⟩

/-- C10 witness: the dry-run privilege theorem for a concrete unprivileged
user running a dry-run preview. -/
theorem unprivileged_dry_run_exits_two_witness :
    (1001 ≠ 0) ∧
    (set_permissions ["k"] true (_has_privilege 1001 ["staff"]) fsTemplOnly).exitCode =
      some EXIT_PERMISSION_ERROR ∧
    (set_permissions ["k"] true (_has_privilege 1001 ["staff"]) fsTemplOnly).fs = fsTemplOnly :=
  ⟨by decide,
   (unprivileged_dry_run_exits_two ["k"] 1001 ["staff"] fsTemplOnly
     (by decide) (by decide) (by decide)).1,
   (unprivileged_dry_run_exits_two ["k"] 1001 ["staff"] fsTemplOnly
     (by decide) (by decide) (by decide)).2⟩

end OpenJournal





namespace OpenJournal

/-- C8: re-running the deployer with `--force` on an already-deployed
instance is idempotent with respect to final file contents — for the same
domain/locale/email inputs, the second successful run leaves every file
under the target subtree byte-identical to what the first run produced. -/
theorem force_redeploy_idempotent (d l : String) (e : Option String) (euid : Nat)
    (groups : List String) (reply reply2 : Option String) (fs g g2 : Fs)
    (h1 : mainRun d l e true false euid groups reply fs = .next g)
    (h2 : mainRun d l e true false euid groups reply2 g = .next g2) :
    ∀ p, ([_extract_subdomain d] : FPath).isPrefixOf p = true →
      g2.files p = g.files p := by
  obtain ⟨hT1, hne, hP1, hg⟩ := mainRun_force_inversion d l e euid groups reply fs g h1
  obtain ⟨hT2, hne2, hP2, hg2⟩ := mainRun_force_inversion d l e euid groups reply2 g g2 h2
  have hgf : g.files = (forceDeployFs d l e fs).files := by
    rw [hg]
    exact set_permissions_true_files _ _
  have hg2f : g2.files = (forceDeployFs d l e g).files := by
    rw [hg2]
    exact set_permissions_true_files _ _
  have htmpl : ∀ q : FPath,
      g.files ([TEMPLATE_DIR] ++ q) = fs.files ([TEMPLATE_DIR] ++ q) := by
    intro q
    rw [hgf]
    apply forceDeployFs_files_outside
    show ([_extract_subdomain d] : FPath).isPrefixOf (TEMPLATE_DIR :: q) = false
    rw [isPrefixOf_singleton_cons]
    exact beq_eq_false_iff_ne.mpr hne
  intro p hp
  rw [hg2f]
  rw [forceDeployFs_files_inside d l e g hne p hp]
  rw [targetSpecFiles_congr d l e (fun q => g.files ([TEMPLATE_DIR] ++ q))
    (fun q => fs.files ([TEMPLATE_DIR] ++ q)) p htmpl]
  rw [← forceDeployFs_files_inside d l e fs hne p hp]
  rw [← hgf]

/-- C8 witness: the idempotence theorem at a concrete template, domain and
target file. -/
theorem force_redeploy_idempotent_witness :
    mainRun "a.example.com" "en" none true false 0 [] none fsDeploy0 = .next deployG1 ∧
    mainRun "a.example.com" "en" none true false 0 [] none deployG1 = .next deployG2 ∧
    ([_extract_subdomain "a.example.com"] : FPath).isPrefixOf ["a", ".env"] = true ∧
    deployG2.files ["a", ".env"] = deployG1.files ["a", ".env"] :=
  ⟨rfl, rfl, by decide,
   force_redeploy_idempotent "a.example.com" "en" none 0 [] none none fsDeploy0
     deployG1 deployG2 rfl rfl ["a", ".env"] (by decide)⟩

end OpenJournal
